import Mathlib

/-!
Shallow embedding of the GDI real-time gesture pipeline (backend of the
GestureFlow application) and proofs about it.

Modelling conventions, used throughout:

* Python floats are idealized as exact numbers.  Raw landmark coordinates,
  timestamps and cursor positions are rationals (every IEEE float value is a
  rational); quantities produced by a square root (Euclidean distances,
  normalized feature coordinates, confidences) live in the real numbers.
* External collaborators are oracles passed as arguments: the OS action
  executor is a function from action identifiers to a success flag, the OS
  cursor-move call is represented by a flag saying whether it raises, and
  wall-clock time is an explicit argument.  Outbound WebSocket messages and
  other external effects are collected in result lists instead of being
  performed.
* Python exceptions that escape a modelled function are represented with
  PyExc / Except.  A Python local variable that may be read before its first
  assignment is modelled as an Option around its value, where none stands for
  the unbound state (reading it raises UnboundLocalError).
* Python round(x, 4) is modelled with Mathlib round (round-half-up); CPython
  uses round-half-even, but no value in this development sits on a half-tie,
  so the two agree on everything proved here.
-/

/-! ## Numeric helpers -/

/-- Python round(x, 4) on a real number: round to four decimal places. -/
noncomputable def pyRound4R (x : ℝ) : ℝ := (round (x * 10000) : ℤ) / 10000

/-- Python round(q, 4) on a rational number (used for payload landmark lists). -/
def round4Q (q : ℚ) : ℚ := (round (q * 10000) : ℤ) / 10000

/-- Python int() on a rational: truncation toward zero. -/
def pyInt (q : ℚ) : ℤ := if 0 ≤ q then ⌊q⌋ else ⌈q⌉

/-- numpy.interp with two sample points (x0, x1) mapped to (y0, y1):
linear interpolation, clamped to the endpoint values outside [x0, x1]. -/
def npInterp (x x0 x1 y0 y1 : ℚ) : ℚ :=
  if x ≤ x0 then y0
  else if x1 ≤ x then y1
  else y0 + (y1 - y0) * (x - x0) / (x1 - x0)

/-! ## Raw landmarks and feature vectors -/

/-- One raw MediaPipe landmark: camera-normalized x, y and relative depth z. -/
abbrev Pt3 : Type := ℚ × ℚ × ℚ

/-- A detected hand: 21 raw landmarks, as handed to the pipeline by the
landmark detector (an external collaborator, see the spec). -/
abbrev Hand : Type := Fin 21 → Pt3

/-- A feature vector (values of a numpy float array, idealized as reals). -/
abbrev Vec : Type := List ℝ

/-- Sum of squared componentwise differences of two equal-length vectors. -/
def sqDiffSum (v w : Vec) : ℝ := (List.zipWith (fun a b => (a - b) ^ 2) v w).sum

/-- Euclidean distance between two feature vectors
(numpy linalg.norm of the difference). -/
noncomputable def distR (v w : Vec) : ℝ := Real.sqrt (sqDiffSum v w)

/-- Euclidean 2-D distance between two rational points (math.sqrt of the sum
of squared coordinate differences, as in mouse_engine._distance and the
session loop QC check). -/
noncomputable def dist2 (a b : ℚ × ℚ) : ℝ :=
  Real.sqrt (((a.1 - b.1) ^ 2 + (a.2 - b.2) ^ 2 : ℚ) : ℝ)

/-! ## vision.py — normalize_landmarks -/

/-- Landmarks after step 1 of normalize_landmarks: translate so that the
wrist (index 0) is at the origin. -/
def translated (lm : Hand) (i : Fin 21) : Pt3 :=
  ((lm i).1 - (lm 0).1, (lm i).2.1 - (lm 0).2.1, (lm i).2.2 - (lm 0).2.2)

/-- Squared norm of translated point 9 (wrist-to-middle-MCP vector). -/
def mcp9sq (lm : Hand) : ℚ :=
  (translated lm 9).1 ^ 2 + (translated lm 9).2.1 ^ 2 + (translated lm 9).2.2 ^ 2

/-- Step 2 of normalize_landmarks: the scale reference distance
numpy.linalg.norm(coords[9]) computed after translation. -/
noncomputable def mcp9_dist (lm : Hand) : ℝ := Real.sqrt ((mcp9sq lm : ℚ) : ℝ)

open Classical in
/-- The normalized 21 x 3 coordinate array of vision.normalize_landmarks:
translate so point 0 is the origin, then divide every coordinate by the
norm of translated point 9 when that norm is strictly positive, else leave
the coordinates unscaled. -/
noncomputable def normCoords (lm : Hand) (i : Fin 21) : ℝ × ℝ × ℝ :=
  let t := translated lm i
  if mcp9_dist lm > 0 then
    ((t.1 : ℝ) / mcp9_dist lm, (t.2.1 : ℝ) / mcp9_dist lm, (t.2.2 : ℝ) / mcp9_dist lm)
  else ((t.1 : ℝ), (t.2.1 : ℝ), (t.2.2 : ℝ))

/-- vision.normalize_landmarks: the flattened 63-float feature vector. -/
noncomputable def normalize_landmarks (lm : Hand) : Vec :=
  (List.finRange 21).flatMap fun i =>
    [(normCoords lm i).1, (normCoords lm i).2.1, (normCoords lm i).2.2]

/-! ## model.py — GestureClassifier -/

/-- model.UNKNOWN_THRESHOLD: nearest-neighbor distance above which a
prediction is reported as Unknown. -/
noncomputable def UNKNOWN_THRESHOLD : ℝ := 0.6

/-- The state a fitted sklearn KNeighborsClassifier carries that the
pipeline observes: the neighbor count passed at construction and the
snapshot of (vector, label) training pairs passed to fit. -/
structure FitModel where
  n_neighbors : ℕ
  samples : List (Vec × String)

/-- model.GestureClassifier state: configured neighbor count, the
accumulated sample buffer (X_data and y_data in insertion order), the
fitted model if any, and the trained flag. -/
structure GestureClassifier where
  n_neighbors : ℕ
  X_data : List Vec
  y_data : List String
  model : Option FitModel
  is_trained : Bool

/-- A fresh GestureClassifier(n_neighbors): empty buffer, no model. -/
def GestureClassifier.init (k : ℕ) : GestureClassifier :=
  ⟨k, [], [], none, false⟩

/-- GestureClassifier.add_sample: append one labelled vector to the buffer. -/
def GestureClassifier.add_sample (c : GestureClassifier) (label : String)
    (landmarks : Vec) : GestureClassifier :=
  { c with X_data := c.X_data ++ [landmarks], y_data := c.y_data ++ [label] }

/-- GestureClassifier.train: skip when the buffer is empty; otherwise fit a
fresh KNN model on the whole buffer with neighbor count clamped to the
sample count, and set the trained flag. -/
def GestureClassifier.train (c : GestureClassifier) : GestureClassifier :=
  if c.X_data.length = 0 then c
  else
    { c with
      model := some ⟨min c.n_neighbors c.X_data.length, c.X_data.zip c.y_data⟩,
      is_trained := true }

/-- Code-point comparison of characters (Python string ordering is by code
point), written so that the kernel can evaluate it. -/
def charLt (c d : Char) : Bool := c.val < d.val

/-- Lexicographic strict comparison of strings as character lists. -/
def strLtB : List Char → List Char → Bool
  | [], [] => false
  | [], _ :: _ => true
  | _ :: _, [] => false
  | c :: cs, d :: ds =>
    if charLt c d then true else if charLt d c then false else strLtB cs ds

/-- Least string of a nonempty collection under code-point order. -/
def leastStr (h : String) (t : List String) : String :=
  t.foldl (fun acc l => if strLtB l.toList acc.toList then l else acc) h

/-- Majority vote of scipy.stats mode as used by KNeighborsClassifier.predict
with uniform weights: the label of maximal multiplicity, ties broken toward
the smallest label in code-point order. -/
def voteLabel (ls : List String) : String :=
  match ls.filter (fun l => ∀ m ∈ ls, ls.count m ≤ ls.count l) with
  | [] => ""
  | h :: t => leastStr h t

open Classical in
/-- The ascending distance row returned by model.kneighbors(sample): the
distances from the query to every fitted sample, sorted ascending, first
n_neighbors entries.  Equal distances keep buffer order (a stable sort). -/
noncomputable def kneighborsDists (m : FitModel) (v : Vec) : List ℝ :=
  (List.insertionSort (· ≤ ·) (m.samples.map fun s => distR v s.1)).take m.n_neighbors

open Classical in
/-- The label produced by the fitted model.predict(sample): majority vote
over the labels of the n_neighbors nearest fitted samples. -/
noncomputable def knnVoteLabel (m : FitModel) (v : Vec) : String :=
  voteLabel
    (((List.insertionSort (fun a b : ℝ × String => a.1 ≤ b.1)
        (m.samples.map fun s => (distR v s.1, s.2))).take m.n_neighbors).map Prod.snd)

/-- The result dictionary of GestureClassifier.predict. -/
structure PredOut where
  label : String
  confidence : ℝ

open Classical in
/-- GestureClassifier.predict.  The source guards with a single test
(not trained or model missing); here the two disjuncts are tested in
sequence, which is observationally identical for a pure function.
min_dist is distances[0][0] of kneighbors: the head of the ascending
distance row. -/
noncomputable def GestureClassifier.predict (c : GestureClassifier) (v : Vec) : PredOut :=
  match c.model with
  | none => ⟨"Unknown", 0⟩
  | some m =>
    if c.is_trained = false then ⟨"Unknown", 0⟩
    else
      let min_dist := (kneighborsDists m v).headD 0
      if min_dist > UNKNOWN_THRESHOLD then ⟨"Unknown", pyRound4R min_dist⟩
      else ⟨knnVoteLabel m v, pyRound4R (max 0 (min 1 (1 - min_dist)))⟩

/-- Python exceptions that the modelled code can raise. -/
inductive PyExc
  | unboundLocal
  | unpickling
deriving DecidableEq

/-- What the model file on disk can look like to load_model: absent, present
but not a valid pickle of the expected payload, or a valid snapshot. -/
inductive FileContent
  | missing
  | corrupt
  | snapshot (X : List Vec) (y : List String) (model : Option FitModel) (trained : Bool)

/-- GestureClassifier.load_model: returns False leaving the state untouched
when the file does not exist; propagates the pickle exception when the
payload does not parse; otherwise installs all four snapshot fields and
returns True. -/
def GestureClassifier.load_model (c : GestureClassifier) (file : FileContent) :
    Except PyExc (GestureClassifier × Bool) :=
  match file with
  | .missing => .ok (c, false)
  | .corrupt => .error .unpickling
  | .snapshot X y m t =>
      .ok ({ c with X_data := X, y_data := y, model := m, is_trained := t }, true)

/-! ## controller.py — DesktopController -/

/-- controller.DesktopController state: the gesture-to-action map, the
debounce cooldown in seconds, and the per-gesture last-fired timestamps.
Dictionaries are association lists whose leftmost binding is current. -/
structure DesktopController where
  gesture_map : List (String × String)
  cooldown : ℚ
  last_action_time : List (String × ℚ)

/-- A fresh DesktopController over a gesture map, with the default 1.0 s
cooldown and no recorded action times. -/
def DesktopController.init (gmap : List (String × String)) : DesktopController :=
  ⟨gmap, 1, []⟩

/-- DesktopController.execute.  The external action executor _run_action is
the oracle runAct, and time.time() is the explicit argument now.  The middle
component records which actions the executor was invoked on during the call
(empty means the executor was never reached).  A gesture of none models a
Python None argument. -/
def DesktopController.execute (c : DesktopController) (runAct : String → Bool)
    (now : ℚ) (gesture : Option String) : Bool × List String × DesktopController :=
  match gesture with
  | none => (false, [], c)
  | some g =>
    if g = "Unknown" ∨ g = "None" then (false, [], c)
    else
      match c.gesture_map.lookup g with
      | none => (false, [], c)
      | some action =>
        let last := (c.last_action_time.lookup g).getD 0
        if now - last < c.cooldown then (false, [], c)
        else
          let success := runAct action
          if success then
            (true, [action], { c with last_action_time := (g, now) :: c.last_action_time })
          else (false, [action], c)

/-! ## mouse_engine.py — MouseController -/

/-- mouse_engine.MouseController state: constructor parameters plus the
smoothed previous cursor position and the two click debounce timestamps. -/
structure MouseState where
  screen_width : ℚ
  screen_height : ℚ
  frame_reduction : ℚ
  smoothening : ℚ
  click_threshold : ℚ
  click_cooldown : ℚ
  prev_x : ℚ
  prev_y : ℚ
  last_left_click : ℚ
  last_right_click : ℚ

/-- MouseController() with the default constructor parameters over a given
screen size: cursor starts at the screen centre, click timestamps at epoch. -/
def MouseState.init (w h : ℚ) : MouseState :=
  { screen_width := w, screen_height := h, frame_reduction := 100,
    smoothening := 3, click_threshold := 1/20, click_cooldown := 3/10,
    prev_x := w / 2, prev_y := h / 2, last_left_click := 0, last_right_click := 0 }

/-- OS mouse events the engine can emit. -/
inductive MouseEvent
  | moveTo (x y : ℤ)
  | leftClick
  | rightClick
deriving DecidableEq

/-- The screen-space target of the cursor for a hand (step 1 of
process_hand): index-fingertip x and y pushed through numpy.interp over the
active zone defined by the frame_reduction margin. -/
def mouseTarget (st : MouseState) (lms : Hand) : ℚ × ℚ :=
  (npInterp (lms 8).1 (st.frame_reduction / st.screen_width)
      (1 - st.frame_reduction / st.screen_width) 0 st.screen_width,
   npInterp (lms 8).2.1 (st.frame_reduction / st.screen_height)
      (1 - st.frame_reduction / st.screen_height) 0 st.screen_height)

open Classical in
/-- MouseController.process_hand.  now is time.time(); moveFails says
whether the OS cursor-move call raises (the source catches that exception
and continues).  Returns the updated state and the OS events performed, in
order: the move (when it does not fail), then a left click if the
index-thumb pinch fires, then a right click if the middle-thumb pinch
fires. -/
noncomputable def MouseController.process_hand (st : MouseState) (now : ℚ)
    (lms : Hand) (moveFails : Bool) : MouseState × List MouseEvent :=
  let target := mouseTarget st lms
  let curr_x := st.prev_x + (target.1 - st.prev_x) / st.smoothening
  let curr_y := st.prev_y + (target.2 - st.prev_y) / st.smoothening
  let moveEvents : List MouseEvent :=
    if moveFails then [] else [.moveTo (pyInt curr_x) (pyInt curr_y)]
  let st1 := { st with prev_x := curr_x, prev_y := curr_y }
  let dist_left := dist2 ((lms 8).1, (lms 8).2.1) ((lms 4).1, (lms 4).2.1)
  let afterLeft :=
    if dist_left < (st1.click_threshold : ℝ) then
      if now - st1.last_left_click > st1.click_cooldown then
        ({ st1 with last_left_click := now }, [MouseEvent.leftClick])
      else (st1, ([] : List MouseEvent))
    else (st1, ([] : List MouseEvent))
  let st2 := afterLeft.1
  let dist_right := dist2 ((lms 12).1, (lms 12).2.1) ((lms 4).1, (lms 4).2.1)
  let afterRight :=
    if dist_right < (st2.click_threshold : ℝ) then
      if now - st2.last_right_click > st2.click_cooldown then
        ({ st2 with last_right_click := now }, [MouseEvent.rightClick])
      else (st2, ([] : List MouseEvent))
    else (st2, ([] : List MouseEvent))
  (afterRight.1, moveEvents ++ afterLeft.2 ++ afterRight.2)

/-! ## main.py — the WebSocket session loop -/

/-- main.QC_VELOCITY_THRESHOLD: max allowed wrist travel per frame. -/
noncomputable def QC_VELOCITY_THRESHOLD : ℝ := 0.3

/-- main.PROCESS_EVERY_N: process every Nth frame outside training. -/
def PROCESS_EVERY_N : ℕ := 1

/-- One per-tick status payload sent over the WebSocket (a JSON object;
absent optional keys are none). -/
structure Payload where
  gesture : String
  confidence : ℝ
  landmarks : Option (List (ℚ × ℚ))
  status : String
  action : Option String := none
  frames_captured : Option ℕ := none
  target_frames : Option ℕ := none

/-- A JSON message sent to the client: either a full per-tick payload or a
bare status object such as the terminal training_complete signal. -/
inductive Msg
  | payload (p : Payload)
  | statusOnly (s : String)

/-- External effects a tick performs besides sending messages. -/
inductive Effect
  | mouse (e : MouseEvent)
  | invoke (action : String)
  | saveModel

/-- What one camera/detector step of the loop yields: a failed frame read,
a frame with no detected hand, or the 21 landmarks of the first hand. -/
inductive Frame
  | captureFail
  | noHand
  | hand (h : Hand)

/-- Oracles for the externals touched inside a tick: the desktop action
executor result per action, and whether the OS cursor move raises. -/
structure SessionEnv where
  execOk : String → Bool
  moveFails : Bool

/-- Per-connection state of the websocket_endpoint loop, together with the
process-wide objects it mutates (classifier, controller, mouse engine).
triggeredAction models the Python local triggered_action, which is assigned
only in the prediction branch: none is the unbound state, some none is a
bound Python None, some (some a) is a bound action name. -/
structure LoopState where
  trainingMode : Bool
  trainingLabel : String
  mouseEnabled : Bool
  frameCount : ℕ
  timestampCounter : ℕ
  targetFrames : ℕ
  framesCaptured : ℕ
  prevWrist : Option (ℚ × ℚ)
  lastPayload : Payload
  triggeredAction : Option (Option String)
  classifier : GestureClassifier
  mouse : MouseState
  controller : DesktopController

/-- The cached payload the loop starts with. -/
def initPayload : Payload :=
  { gesture := "None", confidence := 0, landmarks := none, status := "active" }

/-- The per-connection state right after a client connects. -/
def initLoopState (cls : GestureClassifier) (mouse : MouseState)
    (ctrl : DesktopController) : LoopState :=
  { trainingMode := false, trainingLabel := "", mouseEnabled := true,
    frameCount := 0, timestampCounter := 0, targetFrames := 200,
    framesCaptured := 0, prevWrist := none, lastPayload := initPayload,
    triggeredAction := none, classifier := cls, mouse := mouse,
    controller := ctrl }

/-- Handler of the start_training client command: enter training mode and
reset the capture counter and the QC wrist memory. -/
def startTraining (st : LoopState) (label : String) (target : ℕ) : LoopState :=
  { st with trainingMode := true, trainingLabel := label,
            targetFrames := target, framesCaptured := 0, prevWrist := none }

/-- Handler of the stop_training client command: leave training mode,
retrain and save the model, and send a bare training_complete status. -/
def stopTraining (st : LoopState) : LoopState × List Msg × List Effect :=
  ({ st with trainingMode := false, classifier := st.classifier.train },
   [.statusOnly "training_complete"], [.saveModel])

/-- The payload landmark list: [x, y] pairs rounded to 4 decimals. -/
def landmarksToList (h : Hand) : List (ℚ × ℚ) :=
  (List.finRange 21).map fun i => (round4Q (h i).1, round4Q (h i).2.1)

/-- Result of one loop tick: the state after the tick, the external effects
performed, and either the messages sent or the Python exception that
escaped the tick (when it raises, the messages of that tick are lost but
the state mutations made before the raise remain). -/
structure TickResult where
  state : LoopState
  effects : List Effect
  sent : Except PyExc (List Msg)

/-- Step at main.py lines 691-693: include the frame counters in the
payload when any frames were captured. -/
def withCounts (st : LoopState) (p : Payload) : Payload :=
  if 0 < st.framesCaptured then
    { p with frames_captured := some st.framesCaptured,
             target_frames := some st.targetFrames }
  else p

open Classical in
/-- Steps 8 of the loop body (payload build and send), shared by the
training and prediction branches.  Mirrors main.py lines 676-705: build the
lightweight payload; outside training mode consult triggered_action (an
UnboundLocalError escapes here if no prediction frame ever bound it); add
the frame counters when any frames were captured; then either emit the
final payload followed by the terminal training_complete status and reset
the counter, or cache and emit the payload alone. -/
noncomputable def finishTick (st : LoopState) (effects : List Effect) (h : Hand)
    (gesture_label : String) (confidence : ℝ) (status : String) : TickResult :=
  let payload0 : Payload :=
    { gesture := gesture_label, confidence := pyRound4R confidence,
      landmarks := some (landmarksToList h), status := status }
  let withAction : Except PyExc Payload :=
    if st.trainingMode = false then
      match st.triggeredAction with
      | none => .error .unboundLocal
      | some ta => .ok (if ta.isSome then { payload0 with action := ta } else payload0)
    else .ok payload0
  match withAction with
  | .error e => ⟨st, effects, .error e⟩
  | .ok p1 =>
    let p2 := withCounts st p1
    if st.targetFrames ≤ st.framesCaptured ∧ st.trainingMode = false then
      ⟨{ st with framesCaptured := 0 }, effects,
       .ok [.payload p2, .statusOnly "training_complete"]⟩
    else
      ⟨{ st with lastPayload := p2 }, effects, .ok [.payload p2]⟩

open Classical in
/-- The training branch of step 7 (main.py lines 629-662): QC velocity
check against the previous wrist position, then either reject the frame or
record the sample and possibly auto-stop, retraining and saving the model.
Returns the state, effects, and the gesture_label / confidence / status
locals for the payload build. -/
noncomputable def trainingStep (st : LoopState) (h : Hand) (norm : Vec) :
    LoopState × List Effect × String × ℝ × String :=
  let current_wrist : ℚ × ℚ := ((h 0).1, (h 0).2.1)
  let is_moving_too_fast : Prop :=
    match st.prevWrist with
    | some p => dist2 current_wrist p > QC_VELOCITY_THRESHOLD
    | none => False
  let st1 := { st with prevWrist := some current_wrist }
  if is_moving_too_fast then
    (st1, [], "None", 0, "moving_too_fast")
  else
    let st2 := { st1 with classifier := st1.classifier.add_sample st1.trainingLabel norm,
                          framesCaptured := st1.framesCaptured + 1 }
    if st2.targetFrames ≤ st2.framesCaptured then
      ({ st2 with trainingMode := false, classifier := st2.classifier.train },
       [.saveModel], st2.trainingLabel, 1, "tracking")
    else
      (st2, [], st2.trainingLabel, 1, "tracking")

/-- The prediction branch of step 7 (main.py lines 663-674): classify the
normalized vector, bind triggered_action, and dispatch the desktop action
for a recognized gesture. -/
noncomputable def predictStep (st : LoopState) (env : SessionEnv) (now : ℚ)
    (norm : Vec) : LoopState × List Effect × String × ℝ × String :=
  let pred := st.classifier.predict norm
  let st1 := { st with triggeredAction := some none }
  if pred.label ≠ "Unknown" ∧ pred.label ≠ "None" then
    let action_name := st1.controller.gesture_map.lookup pred.label
    let r := st1.controller.execute env.execOk now (some pred.label)
    let st2 := { st1 with controller := r.2.2,
                          triggeredAction := if r.1 then some action_name
                                             else st1.triggeredAction }
    (st2, r.2.1.map .invoke, pred.label, pred.confidence, "active")
  else
    (st1, [], pred.label, pred.confidence, "active")

open Classical in
/-- One tick of the websocket_endpoint loop after command intake (main.py
lines 562-709): frame capture, frame-skip policy, detection, the no-hand
branch, mouse control, the training or prediction branch, and the payload
build and send.  now is time.time() for this tick. -/
noncomputable def sessionTick (st : LoopState) (now : ℚ) (frame : Frame)
    (env : SessionEnv) : TickResult :=
  match frame with
  | .captureFail => ⟨st, [], .ok []⟩
  | .noHand =>
    let st1 := { st with frameCount := st.frameCount + 1 }
    if st1.trainingMode = false ∧ st1.frameCount % PROCESS_EVERY_N ≠ 0 then
      ⟨st1, [], .ok [.payload st1.lastPayload]⟩
    else
      let st2 := { st1 with timestampCounter := st1.timestampCounter + 1 }
      let status := if st2.trainingMode then "hand_lost" else "active"
      let payload : Payload :=
        { gesture := "None", confidence := 0, landmarks := none, status := status,
          frames_captured := some (if st2.trainingMode then st2.framesCaptured else 0) }
      let st3 := { st2 with lastPayload := payload,
                            prevWrist := if st2.trainingMode then none else st2.prevWrist }
      ⟨st3, [], .ok [.payload payload]⟩
  | .hand h =>
    let st1 := { st with frameCount := st.frameCount + 1 }
    if st1.trainingMode = false ∧ st1.frameCount % PROCESS_EVERY_N ≠ 0 then
      ⟨st1, [], .ok [.payload st1.lastPayload]⟩
    else
      let st2 := { st1 with timestampCounter := st1.timestampCounter + 1 }
      let norm := normalize_landmarks h
      let mouseR :=
        if st2.mouseEnabled = true ∧ st2.trainingMode = false then
          MouseController.process_hand st2.mouse now h env.moveFails
        else (st2.mouse, [])
      let st3 := { st2 with mouse := mouseR.1 }
      let branch :=
        if st3.trainingMode then trainingStep st3 h norm
        else predictStep st3 env now norm
      finishTick branch.1 (mouseR.2.map .mouse ++ branch.2.1) h
        branch.2.2.1 branch.2.2.2.1 branch.2.2.2.2

/-! ## Theorems -/

/-- Claim C3, amended: load_model on a missing file returns failure without
raising and leaves the classifier state unchanged (it is not reset to an
empty, untrained state); on a corrupt payload the unpickling exception
propagates out of load_model; on success the full buffer, derived model and
trained flag are installed as one snapshot. -/
theorem load_model_contract (c : GestureClassifier) :
    (c.load_model .missing = .ok (c, false)) ∧
    (c.load_model .corrupt = .error .unpickling) ∧
    (∀ X y m t, c.load_model (.snapshot X y m t) =
      .ok ({ c with X_data := X, y_data := y, model := m, is_trained := t }, true)) :=
  ⟨rfl, rfl, fun _ _ _ _ => rfl⟩

/-- A nonempty, trained classifier state used to refute claim C3 as stated. -/
def loadCexC : GestureClassifier := ⟨5, [[42]], ["A"], none, true⟩

/-- Claim C3 counterexample: load_model raises out of the operation on a
corrupt payload, and on a missing file it reports failure while leaving a
nonempty buffer in place instead of falling back to an empty, untrained
state. -/
theorem load_model_corrupt_raises_cex :
    loadCexC.load_model .corrupt = .error .unpickling ∧
    loadCexC.load_model .missing = .ok (loadCexC, false) ∧
    loadCexC.X_data ≠ [] ∧ loadCexC.is_trained = true := by
  refine ⟨rfl, rfl, by simp [loadCexC], rfl⟩

/-- Claim C6: execute is a no-op failure for Unknown / None / null gestures
and for unmapped gestures, without reaching the executor; a mapped gesture
still inside its cooldown is debounced without reaching the executor; an
eligible mapped gesture invokes the executor, and the last-fired timestamp
is recorded exactly on executor success, so a second trigger of the same
gesture within the cooldown after a success does not invoke the executor
again, while an executor failure leaves the timestamp (and hence the next
eligibility instant) unchanged. -/
theorem dispatch_contract (c : DesktopController) (ex : String → Bool)
    (now now2 : ℚ) (g : String) :
    (c.execute ex now none = (false, [], c)) ∧
    (c.execute ex now (some "Unknown") = (false, [], c)) ∧
    (c.execute ex now (some "None") = (false, [], c)) ∧
    (¬(g = "Unknown" ∨ g = "None") → c.gesture_map.lookup g = none →
        c.execute ex now (some g) = (false, [], c)) ∧
    (∀ a, ¬(g = "Unknown" ∨ g = "None") → c.gesture_map.lookup g = some a →
      (now - ((c.last_action_time.lookup g).getD 0) < c.cooldown →
          c.execute ex now (some g) = (false, [], c)) ∧
      (¬(now - ((c.last_action_time.lookup g).getD 0) < c.cooldown) →
        (ex a = true → c.execute ex now (some g) =
            (true, [a], { c with last_action_time := (g, now) :: c.last_action_time })) ∧
        (ex a = false → c.execute ex now (some g) = (false, [a], c)) ∧
        (ex a = true → now2 - now < c.cooldown →
          (c.execute ex now (some g)).2.2.execute ex now2 (some g) =
            (false, [], (c.execute ex now (some g)).2.2)))) := by
  refine ⟨rfl, by simp [DesktopController.execute], by simp [DesktopController.execute],
    ?_, ?_⟩
  · intro hbad hnone
    simp [DesktopController.execute, hbad, hnone]
  · intro a hbad hsome
    refine ⟨?_, ?_⟩
    · intro hcool
      simp [DesktopController.execute, hbad, hsome, hcool]
    · intro hcool
      refine ⟨?_, ?_, ?_⟩
      · intro hex
        simp [DesktopController.execute, hbad, hsome, hcool, hex]
      · intro hex
        simp [DesktopController.execute, hbad, hsome, hcool, hex]
      · intro hex hclose
        have h1 : c.execute ex now (some g) =
            (true, [a], { c with last_action_time := (g, now) :: c.last_action_time }) := by
          simp [DesktopController.execute, hbad, hsome, hcool, hex]
        rw [h1]
        simp [DesktopController.execute, hbad, hsome, hclose]

/-- A controller with one mapped gesture, used to exercise dispatch_contract. -/
def dispatchWitC : DesktopController := DesktopController.init [("fist", "Play/Pause")]

/-- Witness for dispatch_contract: at a concrete controller, a mapped
gesture fires once at time 5 and is debounced at time 5.5, and the Unknown
gesture is a no-op. -/
theorem dispatch_contract_witness :
    dispatchWitC.execute (fun _ => true) 5 (some "Unknown") = (false, [], dispatchWitC) ∧
    (¬(5 - ((dispatchWitC.last_action_time.lookup "fist").getD 0) < dispatchWitC.cooldown)) ∧
    dispatchWitC.execute (fun _ => true) 5 (some "fist") =
      (true, ["Play/Pause"],
       { dispatchWitC with last_action_time := ("fist", 5) :: dispatchWitC.last_action_time }) ∧
    (dispatchWitC.execute (fun _ => true) 5 (some "fist")).2.2.execute
        (fun _ => true) (11/2) (some "fist") =
      (false, [], (dispatchWitC.execute (fun _ => true) 5 (some "fist")).2.2) := by
  have hbad : ¬(("fist" : String) = "Unknown" ∨ ("fist" : String) = "None") := by
    simp
  have hsome : dispatchWitC.gesture_map.lookup "fist" = some "Play/Pause" := by
    simp [dispatchWitC, DesktopController.init]
  have hcool : ¬((5 : ℚ) - ((dispatchWitC.last_action_time.lookup "fist").getD 0) <
      dispatchWitC.cooldown) := by
    simp [dispatchWitC, DesktopController.init]
  have h := dispatch_contract dispatchWitC (fun _ => true) 5 (11/2) "fist"
  refine ⟨h.2.1, hcool, ?_, ?_⟩
  · exact (((h.2.2.2.2 "Play/Pause" hbad hsome).2 hcool).1 rfl)
  · exact ((h.2.2.2.2 "Play/Pause" hbad hsome).2 hcool).2.2 rfl
      (by norm_num [dispatchWitC, DesktopController.init])

/-- Claim C7: train with an empty buffer is a no-op leaving model and
trained flag unchanged; with a nonempty buffer it fits a fresh model over
the entire accumulated buffer with neighbor count min(configured_k,
sample_count), with no requirement on per-class sample counts. -/
theorem train_contract (c : GestureClassifier) :
    (c.X_data = [] → c.train = c) ∧
    (c.X_data ≠ [] →
      c.train = { c with
        model := some ⟨min c.n_neighbors c.X_data.length, c.X_data.zip c.y_data⟩,
        is_trained := true }) := by
  constructor
  · intro h
    simp [GestureClassifier.train, h]
  · intro h
    rw [GestureClassifier.train, if_neg]
    simpa using h

/-- A classifier whose buffer holds classes of one sample each, fewer than
the configured five neighbors. -/
def trainWitC : GestureClassifier := ⟨5, [[0], [1]], ["A", "B"], none, false⟩

/-- Witness for train_contract: training an empty classifier is a no-op,
and training a two-sample buffer whose classes each have a single sample
(fewer than the configured five neighbors) succeeds with the neighbor count
clamped to two. -/
theorem train_contract_witness :
    (GestureClassifier.init 5).train = GestureClassifier.init 5 ∧
    trainWitC.train = { trainWitC with
      model := some ⟨min trainWitC.n_neighbors trainWitC.X_data.length,
                     trainWitC.X_data.zip trainWitC.y_data⟩,
      is_trained := true } ∧
    min trainWitC.n_neighbors trainWitC.X_data.length = 2 := by
  refine ⟨(train_contract _).1 rfl, (train_contract trainWitC).2 (by simp [trainWitC]), ?_⟩
  simp [trainWitC]

/-- Euclidean norm of a 3-D real point. -/
noncomputable def norm3R (p : ℝ × ℝ × ℝ) : ℝ := Real.sqrt (p.1 ^ 2 + p.2.1 ^ 2 + p.2.2 ^ 2)

/-- The squared scale reference is nonnegative. -/
theorem mcp9sq_nonneg (lm : Hand) : 0 ≤ mcp9sq lm := by
  unfold mcp9sq
  positivity

/-- When landmark 9 differs from the wrist, the squared scale reference is
strictly positive. -/
theorem mcp9sq_pos (lm : Hand) (h : lm 9 ≠ lm 0) : 0 < mcp9sq lm := by
  refine lt_of_le_of_ne (mcp9sq_nonneg lm) (fun h0 => h ?_)
  have h0' := h0.symm
  unfold mcp9sq translated at h0'
  have h1 := (add_eq_zero_iff_of_nonneg (by positivity) (by positivity)).mp h0'
  have h2 := (add_eq_zero_iff_of_nonneg (by positivity) (by positivity)).mp h1.1
  have e1 : (lm 9).1 = (lm 0).1 := sub_eq_zero.mp (sq_eq_zero_iff.mp h2.1)
  have e2 : (lm 9).2.1 = (lm 0).2.1 := sub_eq_zero.mp (sq_eq_zero_iff.mp h2.2)
  have e3 : (lm 9).2.2 = (lm 0).2.2 := sub_eq_zero.mp (sq_eq_zero_iff.mp h1.2)
  exact Prod.ext_iff.mpr ⟨e1, Prod.ext_iff.mpr ⟨e2, e3⟩⟩

/-- The normalized coordinates of the wrist are the origin. -/
theorem normCoords_wrist (lm : Hand) : normCoords lm 0 = (0, 0, 0) := by
  by_cases hd : mcp9_dist lm > 0
  · simp [normCoords, translated, hd]
  · simp [normCoords, translated, hd]

/-- Claim C5, amended: the first three components of the normalized output
are exactly zero; when landmark 9 differs from the wrist landmark (index 0)
— equivalently, when its post-translation position is not the origin — its
post-normalization distance from the origin is exactly 1; and when the
post-translation norm of point 9 is zero the coordinates are left unscaled
rather than being an error. -/
theorem normalize_contract (lm : Hand) :
    (normalize_landmarks lm).take 3 = [0, 0, 0] ∧
    (lm 9 ≠ lm 0 → norm3R (normCoords lm 9) = 1) ∧
    (mcp9_dist lm = 0 → ∀ i, normCoords lm i =
      (((translated lm i).1 : ℝ), ((translated lm i).2.1 : ℝ),
       ((translated lm i).2.2 : ℝ))) := by
  refine ⟨?_, ?_, ?_⟩
  · have ha : (normalize_landmarks lm).take 3 =
        [(normCoords lm 0).1, (normCoords lm 0).2.1, (normCoords lm 0).2.2] := by
      rw [normalize_landmarks, List.finRange_succ_eq_map]
      simp
    rw [ha, normCoords_wrist]
  · intro hne
    have hs : 0 < mcp9sq lm := mcp9sq_pos lm hne
    have hsR : (0 : ℝ) < ((mcp9sq lm : ℚ) : ℝ) := by exact_mod_cast hs
    have hd : 0 < mcp9_dist lm := by
      rw [mcp9_dist]
      exact Real.sqrt_pos.mpr hsR
    have hd2 : mcp9_dist lm ^ 2 = ((mcp9sq lm : ℚ) : ℝ) := by
      rw [mcp9_dist]
      exact Real.sq_sqrt hsR.le
    have hsum : (((translated lm 9).1 : ℝ)) ^ 2 + (((translated lm 9).2.1 : ℝ)) ^ 2 +
        (((translated lm 9).2.2 : ℝ)) ^ 2 = ((mcp9sq lm : ℚ) : ℝ) := by
      rw [mcp9sq]
      push_cast
      ring
    rw [norm3R, normCoords]
    simp only [hd, if_pos]
    rw [div_pow, div_pow, div_pow, div_add_div_same, div_add_div_same, hsum, hd2,
      div_self (ne_of_gt hsR), Real.sqrt_one]
  · intro h0 i
    have : ¬ mcp9_dist lm > 0 := by
      rw [h0]
      exact lt_irrefl 0
    simp [normCoords, this]

/-- A hand whose 21 landmarks all sit at (1/2, 1/2, 1/2): landmark 9 is not
at the origin, but it coincides with the wrist. -/
def cexHand : Hand := fun _ => (1/2, 1/2, 1/2)

/-- Claim C5 counterexample: for the constant hand, the 10th landmark triple
is not the origin pre-normalization, yet its post-normalization distance
from the origin is 0, not 1 — the scaling step keys on the post-translation
norm (distance from the wrist), not on the raw position. -/
theorem normalize_origin_condition_cex :
    cexHand 9 ≠ ((0 : ℚ), (0 : ℚ), (0 : ℚ)) ∧
    norm3R (normCoords cexHand 9) = 0 ∧ (0 : ℝ) ≠ 1 := by
  refine ⟨by simp [cexHand], ?_, by norm_num⟩
  have ht : translated cexHand 9 = (0, 0, 0) := by
    simp [translated, cexHand]
  have h0 : mcp9_dist cexHand = 0 := by
    rw [mcp9_dist]
    have : mcp9sq cexHand = 0 := by simp [mcp9sq, ht]
    rw [this]
    simp
  have := (normalize_contract cexHand).2.2 h0 9
  rw [norm3R, this, ht]
  simp

/-- A hand with landmark 9 one unit along x from the wrist and all other
landmarks at the origin. -/
def witHand : Hand := fun i => if i = 9 then (1, 0, 0) else (0, 0, 0)

/-- Witness for normalize_contract: at witHand the scaled branch applies
with landmark 9 at unit distance; at the constant zero hand the degenerate
branch leaves coordinates unscaled. -/
theorem normalize_contract_witness :
    (witHand 9 ≠ witHand 0 ∧ norm3R (normCoords witHand 9) = 1) ∧
    (mcp9_dist (fun _ => (0, 0, 0)) = 0 ∧
      normCoords (fun _ => (0, 0, 0)) 9 =
        (((translated (fun _ => (0, 0, 0)) 9).1 : ℝ),
         ((translated (fun _ => (0, 0, 0)) 9).2.1 : ℝ),
         ((translated (fun _ => (0, 0, 0)) 9).2.2 : ℝ))) := by
  have hne : witHand 9 ≠ witHand 0 := by simp [witHand]
  have h0 : mcp9_dist (fun _ => ((0 : ℚ), (0 : ℚ), (0 : ℚ))) = 0 := by
    rw [mcp9_dist]
    have : mcp9sq (fun _ => ((0 : ℚ), (0 : ℚ), (0 : ℚ))) = 0 := by
      simp [mcp9sq, translated]
    rw [this]
    simp
  exact ⟨⟨hne, (normalize_contract witHand).2.1 hne⟩,
         ⟨h0, (normalize_contract _).2.2 h0 9⟩⟩

/-- Whether a mouse event is a click (left or right). -/
def isClick : MouseEvent → Bool
  | .leftClick => true
  | .rightClick => true
  | .moveTo _ _ => false

/-- Claim C8: both pinch checks run in every invocation; when the index-thumb
and middle-thumb distances are both under the click threshold and both
per-button cooldowns have elapsed, one left click and one right click are
both emitted in that same invocation (after the cursor move when it
succeeds). -/
theorem pinch_independence (st : MouseState) (now : ℚ) (lms : Hand) (mf : Bool)
    (hl : dist2 ((lms 8).1, (lms 8).2.1) ((lms 4).1, (lms 4).2.1) <
      (st.click_threshold : ℝ))
    (hr : dist2 ((lms 12).1, (lms 12).2.1) ((lms 4).1, (lms 4).2.1) <
      (st.click_threshold : ℝ))
    (hcl : now - st.last_left_click > st.click_cooldown)
    (hcr : now - st.last_right_click > st.click_cooldown) :
    (MouseController.process_hand st now lms mf).2 =
      (if mf then [] else
        [MouseEvent.moveTo
          (pyInt (st.prev_x + ((mouseTarget st lms).1 - st.prev_x) / st.smoothening))
          (pyInt (st.prev_y + ((mouseTarget st lms).2 - st.prev_y) / st.smoothening))]) ++
      [MouseEvent.leftClick, MouseEvent.rightClick] := by
  simp [MouseController.process_hand, hl, hcl, hr, hcr]

/-- A hand with the thumb, index and middle fingertips all at the same point. -/
def pinchHand : Hand := fun _ => (1/2, 1/2, 0)

/-- Witness for pinch_independence: with all fingertips coincident both
pinch distances are zero, both cooldowns have elapsed at time 1, and both
clicks fire in the same invocation. -/
theorem pinch_independence_witness :
    (dist2 ((pinchHand 8).1, (pinchHand 8).2.1) ((pinchHand 4).1, (pinchHand 4).2.1) <
      ((MouseState.init 1920 1080).click_threshold : ℝ)) ∧
    ((1 : ℚ) - (MouseState.init 1920 1080).last_left_click >
      (MouseState.init 1920 1080).click_cooldown) ∧
    (MouseController.process_hand (MouseState.init 1920 1080) 1 pinchHand true).2 =
      (if true then [] else
        [MouseEvent.moveTo
          (pyInt ((MouseState.init 1920 1080).prev_x +
            ((mouseTarget (MouseState.init 1920 1080) pinchHand).1 -
              (MouseState.init 1920 1080).prev_x) / (MouseState.init 1920 1080).smoothening))
          (pyInt ((MouseState.init 1920 1080).prev_y +
            ((mouseTarget (MouseState.init 1920 1080) pinchHand).2 -
              (MouseState.init 1920 1080).prev_y) / (MouseState.init 1920 1080).smoothening))]) ++
      [MouseEvent.leftClick, MouseEvent.rightClick] := by
  have hd : dist2 ((pinchHand 8).1, (pinchHand 8).2.1)
      ((pinchHand 4).1, (pinchHand 4).2.1) = 0 := by
    rw [dist2]
    simp [pinchHand]
  have hdr : dist2 ((pinchHand 12).1, (pinchHand 12).2.1)
      ((pinchHand 4).1, (pinchHand 4).2.1) = 0 := by
    rw [dist2]
    simp [pinchHand]
  have hthr : (0 : ℝ) < ((MouseState.init 1920 1080).click_threshold : ℝ) := by
    norm_num [MouseState.init]
  have hcool : (1 : ℚ) - (MouseState.init 1920 1080).last_left_click >
      (MouseState.init 1920 1080).click_cooldown := by
    norm_num [MouseState.init]
  have hcoolr : (1 : ℚ) - (MouseState.init 1920 1080).last_right_click >
      (MouseState.init 1920 1080).click_cooldown := by
    norm_num [MouseState.init]
  exact ⟨hd ▸ hthr, hcool,
    pinch_independence (MouseState.init 1920 1080) 1 pinchHand true
      (hd ▸ hthr) (hdr ▸ hthr) hcool hcoolr⟩

/-- Claim C10: the mouse engine state reached by an invocation does not
depend on whether the OS cursor-move call raises — the previous-cursor
state is advanced to the newly smoothed position either way — and the click
events of the invocation are the same either way: a move failure never
aborts the invocation or freezes the smoothing state. -/
theorem move_failure_isolated (st : MouseState) (now : ℚ) (lms : Hand) :
    (MouseController.process_hand st now lms true).1 =
      (MouseController.process_hand st now lms false).1 ∧
    (MouseController.process_hand st now lms true).1.prev_x =
      st.prev_x + ((mouseTarget st lms).1 - st.prev_x) / st.smoothening ∧
    (MouseController.process_hand st now lms true).1.prev_y =
      st.prev_y + ((mouseTarget st lms).2 - st.prev_y) / st.smoothening ∧
    (MouseController.process_hand st now lms true).2.filter isClick =
      (MouseController.process_hand st now lms false).2.filter isClick := by
  by_cases hL : dist2 ((lms 8).1, (lms 8).2.1) ((lms 4).1, (lms 4).2.1) <
      (st.click_threshold : ℝ) <;>
  by_cases hCL : now - st.last_left_click > st.click_cooldown <;>
  by_cases hR : dist2 ((lms 12).1, (lms 12).2.1) ((lms 4).1, (lms 4).2.1) <
      (st.click_threshold : ℝ) <;>
  by_cases hCR : now - st.last_right_click > st.click_cooldown <;>
  simp [MouseController.process_hand, hL, hCL, hR, hCR, isClick]

/-- Taking at least one element preserves the head of a list. -/
theorem headD_take (l : List ℝ) (k : ℕ) (hk : 1 ≤ k) : (l.take k).headD 0 = l.headD 0 := by
  cases l with
  | nil => simp
  | cons a t =>
    cases k with
    | zero => omega
    | succ n => simp

/-- The head of the ascending sort of a nonempty real list is its minimum. -/
theorem sorted_headD_min (l : List ℝ) (hl : l ≠ []) :
    (List.insertionSort (· ≤ ·) l).headD 0 = (l.min?).getD 0 := by
  haveI : Std.Antisymm (fun x1 x2 : ℝ => x1 ≤ x2) := ⟨fun h h' => le_antisymm h h'⟩
  have hperm := List.perm_insertionSort (· ≤ ·) l
  have hsorted := List.sorted_insertionSort (· ≤ ·) l
  obtain ⟨a, as, hs⟩ : ∃ a as, List.insertionSort (· ≤ ·) l = a :: as := by
    cases h : List.insertionSort (· ≤ ·) l with
    | nil => exact absurd ((h ▸ hperm).symm.eq_nil) hl
    | cons a as => exact ⟨a, as, rfl⟩
  have hmem : a ∈ l := hperm.mem_iff.mp (hs ▸ List.mem_cons_self a as)
  have hle : ∀ b ∈ l, a ≤ b := by
    intro b hb
    have hb' : b ∈ a :: as := hs ▸ hperm.mem_iff.mpr hb
    rcases List.mem_cons.mp hb' with h | h
    · exact h ▸ le_refl a
    · exact (List.sorted_cons.mp (hs ▸ hsorted)).1 b h
  have hmin : l.min? = some a :=
    (List.min?_eq_some_iff (fun x => le_refl x) (fun x y => min_choice x y)
      (fun x y z => le_min_iff)).mpr ⟨hmem, hle⟩
  rw [hs, hmin]
  rfl

/-- The nearest-neighbor distance as the spec words it: the minimum of the
distances from the query to the fitted samples (0 for an empty model). -/
noncomputable def specNearestDist (m : FitModel) (v : Vec) : ℝ :=
  ((m.samples.map fun s => distR v s.1).min?).getD 0

/-- Claim C1, amended: with no trained model predict returns
("Unknown", 0.0); with a trained, nonempty model and nearest-neighbor
distance d, it returns ("Unknown", round(d, 4)) when d exceeds the 0.6
threshold — the raw distance, not a 0..1 confidence — and otherwise the
majority-vote label among the n_neighbors nearest samples (not necessarily
the single nearest neighbor's label) with confidence
round(clamp(1 - d, 0, 1), 4). -/
theorem predict_contract (c : GestureClassifier) (v : Vec) :
    ((c.is_trained = false ∨ c.model = none) → c.predict v = ⟨"Unknown", 0⟩) ∧
    (∀ m, c.model = some m → c.is_trained = true → 1 ≤ m.n_neighbors →
      m.samples ≠ [] →
      (specNearestDist m v > UNKNOWN_THRESHOLD →
          c.predict v = ⟨"Unknown", pyRound4R (specNearestDist m v)⟩) ∧
      (¬ specNearestDist m v > UNKNOWN_THRESHOLD →
          c.predict v = ⟨knnVoteLabel m v,
            pyRound4R (max 0 (min 1 (1 - specNearestDist m v)))⟩)) := by
  constructor
  · intro h
    cases hm : c.model with
    | none => simp [GestureClassifier.predict, hm]
    | some m =>
      rcases h with h | h
      · simp [GestureClassifier.predict, hm, h]
      · exact absurd (hm ▸ h) (by simp)
  · intro m hm htr hk hne
    have key : (kneighborsDists m v).headD 0 = specNearestDist m v := by
      rw [kneighborsDists, headD_take _ _ hk,
        sorted_headD_min _ (by simpa using hne)]
      rfl
    constructor
    · intro hgt
      simp only [GestureClassifier.predict, hm, htr]
      rw [key]
      simp [hgt]
    · intro hle
      simp only [GestureClassifier.predict, hm, htr]
      rw [key]
      simp [hle]

/-- The classifier obtained by accumulating one "A" sample at the origin and
two "B" samples nearby, then training: the fitted neighbor count is
min(5, 3) = 3, so every prediction takes a majority vote of all three
samples. -/
noncomputable def cexC : GestureClassifier :=
  ((((GestureClassifier.init 5).add_sample "A" [0]).add_sample "B"
    [1/5]).add_sample "B" [3/10]).train

/-- The fitted model inside cexC. -/
noncomputable def cexM : FitModel :=
  ⟨3, [([0], "A"), ([1/5], "B"), ([3/10], "B")]⟩

/-- The query vector of the C1 counterexample: distance 3/100000 from the
"A" sample and much further from both "B" samples. -/
noncomputable def cexV : Vec := [3/100000]

/-- Distance from the query to a one-dimensional sample [a] is |3/100000 - a|. -/
theorem cexV_dist (a : ℝ) :
    distR cexV [a] = |3/100000 - a| := by
  rw [distR, sqDiffSum, cexV]
  simp only [List.zipWith, List.sum_cons, List.sum_nil, add_zero]
  rw [show ((3:ℝ)/100000 - a) ^ 2 = |3/100000 - a| ^ 2 by rw [sq_abs]]
  exact Real.sqrt_sq (abs_nonneg _)

/-- Claim C1 counterexample: at the concrete trained classifier cexC and
query cexV, the strictly nearest sample carries label "A", yet predict
returns label "B" (the majority vote of the three nearest samples) with
confidence 1 (the rounded clamp), while the claim says the nearest-neighbor
label "A" with confidence clamp(1 - d, 0, 1) = 99997/100000. -/
theorem predict_votes_not_nearest_cex :
    distR cexV [0] < distR cexV [1/5] ∧
    distR cexV [0] < distR cexV [3/10] ∧
    cexC.predict cexV = ⟨"B", 1⟩ ∧
    ("B" : String) ≠ "A" ∧
    max 0 (min 1 (1 - distR cexV [0])) = 99997/100000 ∧
    (1 : ℝ) ≠ 99997/100000 := by
  have hd1 : distR cexV [0] = 3/100000 := by
    rw [cexV_dist 0]
    rw [abs_of_nonneg (by norm_num)]
    norm_num
  have hd2 : distR cexV [1/5] = 19997/100000 := by
    rw [cexV_dist (1/5)]
    rw [abs_of_nonpos (by norm_num)]
    norm_num
  have hd3 : distR cexV [3/10] = 29997/100000 := by
    rw [cexV_dist (3/10)]
    rw [abs_of_nonpos (by norm_num)]
    norm_num
  have hcm : cexC = ⟨5, [[0], [1/5], [3/10]], ["A", "B", "B"], some cexM, true⟩ := by
    rw [cexC, cexM]
    simp [GestureClassifier.init, GestureClassifier.add_sample, GestureClassifier.train]
  have hsortd : List.insertionSort (· ≤ ·)
      ([([(0:ℝ)], "A"), ([1/5], "B"), ([3/10], "B")].map fun s => distR cexV s.1) =
      [distR cexV [0], distR cexV [1/5], distR cexV [3/10]] := by
    simp only [List.map_cons, List.map_nil, List.insertionSort, List.orderedInsert]
    rw [if_pos (by rw [hd2, hd3]; norm_num)]
    simp only [List.orderedInsert]
    rw [if_pos (by rw [hd1, hd2]; norm_num)]
  have hsortp : List.insertionSort (fun a b : ℝ × String => a.1 ≤ b.1)
      ([([(0:ℝ)], "A"), ([1/5], "B"), ([3/10], "B")].map fun s => (distR cexV s.1, s.2)) =
      [(distR cexV [0], "A"), (distR cexV [1/5], "B"), (distR cexV [3/10], "B")] := by
    simp only [List.map_cons, List.map_nil, List.insertionSort, List.orderedInsert]
    rw [if_pos (by show distR cexV [1/5] ≤ distR cexV [3/10]; rw [hd2, hd3]; norm_num)]
    simp only [List.orderedInsert]
    rw [if_pos (by show distR cexV [0] ≤ distR cexV [1/5]; rw [hd1, hd2]; norm_num)]
  have hvote : voteLabel ["A", "B", "B"] = "B" := by decide
  have hpred : cexC.predict cexV = ⟨"B", 1⟩ := by
    rw [hcm]
    simp only [GestureClassifier.predict]
    rw [if_neg (show ¬(true = false) by simp)]
    simp only [cexM, kneighborsDists, knnVoteLabel]
    rw [hsortd, hsortp]
    simp only [List.take, List.headD, List.map_cons, List.map_nil]
    rw [hd1]
    rw [if_neg (by rw [UNKNOWN_THRESHOLD]; norm_num)]
    rw [hvote]
    have hclamp : max 0 (min 1 (1 - (3:ℝ)/100000)) = 99997/100000 := by
      rw [min_eq_right (by norm_num), max_eq_right (by norm_num)]
      norm_num
    rw [hclamp]
    have hround : pyRound4R ((99997:ℝ)/100000) = 1 := by
      rw [pyRound4R]
      rw [show ((99997:ℝ)/100000) * 10000 = 99997/10 by norm_num]
      rw [round_eq]
      norm_num [Int.floor_eq_iff]
    rw [hround]
  refine ⟨by rw [hd1, hd2]; norm_num, by rw [hd1, hd3]; norm_num, hpred, by decide, ?_, by norm_num⟩
  rw [hd1]
  rw [min_eq_right (by norm_num), max_eq_right (by norm_num)]
  norm_num

/-- The classifier trained on a single "A" sample at the origin. -/
noncomputable def witC : GestureClassifier :=
  ((GestureClassifier.init 5).add_sample "A" [0]).train

/-- The fitted model inside witC. -/
noncomputable def witM : FitModel := ⟨1, [([0], "A")]⟩

/-- Witness for predict_contract: an untrained classifier answers
("Unknown", 0), and at the one-sample trained classifier witC the
below-threshold branch of the contract applies with nearest distance 0. -/
theorem predict_contract_witness :
    ((GestureClassifier.init 5).predict [0] = ⟨"Unknown", 0⟩) ∧
    (witC.model = some witM ∧ witC.is_trained = true ∧ 1 ≤ witM.n_neighbors ∧
      witM.samples ≠ [] ∧ ¬ specNearestDist witM [0] > UNKNOWN_THRESHOLD ∧
      witC.predict [0] = ⟨knnVoteLabel witM [0],
        pyRound4R (max 0 (min 1 (1 - specNearestDist witM [0])))⟩) := by
  have h1 : (GestureClassifier.init 5).predict [0] = ⟨"Unknown", 0⟩ :=
    (predict_contract (GestureClassifier.init 5) [0]).1 (Or.inl rfl)
  have hm : witC.model = some witM := by
    rw [witC, witM]
    simp [GestureClassifier.init, GestureClassifier.add_sample, GestureClassifier.train]
  have htr : witC.is_trained = true := by
    rw [witC]
    simp [GestureClassifier.init, GestureClassifier.add_sample, GestureClassifier.train]
  have hd0 : distR [(0:ℝ)] [0] = 0 := by
    rw [distR, sqDiffSum]
    simp
  have hspec : specNearestDist witM [0] = 0 := by
    rw [specNearestDist, witM]
    simp only [List.map_cons, List.map_nil]
    rw [hd0]
    rfl
  have hle : ¬ specNearestDist witM [0] > UNKNOWN_THRESHOLD := by
    rw [hspec, UNKNOWN_THRESHOLD]
    norm_num
  exact ⟨h1, hm, htr, by rw [witM], by rw [witM]; simp, hle,
    ((predict_contract witC [0]).2 witM hm htr (by rw [witM])
      (by rw [witM]; simp)).2 hle⟩

/-- withCounts never changes the status field. -/
theorem withCounts_status (st : LoopState) (p : Payload) :
    (withCounts st p).status = p.status := by
  rw [withCounts]
  split <;> rfl

/-- withCounts never changes the gesture field. -/
theorem withCounts_gesture (st : LoopState) (p : Payload) :
    (withCounts st p).gesture = p.gesture := by
  rw [withCounts]
  split <;> rfl

/-- With a positive capture counter, withCounts reports it in the payload. -/
theorem withCounts_fc (st : LoopState) (p : Payload) (hpos : 0 < st.framesCaptured) :
    (withCounts st p).frames_captured = some st.framesCaptured := by
  rw [withCounts, if_pos hpos]

/-- In training mode, a hand tick is the training branch followed by the
payload build, on the state with the frame counters advanced; the mouse
engine is not consulted. -/
theorem sessionTick_training_hand (st : LoopState) (now : ℚ) (h : Hand)
    (env : SessionEnv) (hmode : st.trainingMode = true) :
    sessionTick st now (.hand h) env =
      (fun b => finishTick b.1 b.2.1 h b.2.2.1 b.2.2.2.1 b.2.2.2.2)
        (trainingStep
          { st with frameCount := st.frameCount + 1,
                    timestampCounter := st.timestampCounter + 1 }
          h (normalize_landmarks h)) := by
  simp [sessionTick, hmode]

/-- The QC gate rejects a fast frame: the previous wrist is replaced, no
sample is recorded, the counter is unchanged, and the payload locals report
a rejected frame. -/
theorem trainingStep_reject (st : LoopState) (h : Hand) (norm : Vec) (p : ℚ × ℚ)
    (hprev : st.prevWrist = some p)
    (hfast : dist2 ((h 0).1, (h 0).2.1) p > QC_VELOCITY_THRESHOLD) :
    trainingStep st h norm =
      ({ st with prevWrist := some ((h 0).1, (h 0).2.1) }, [], "None", 0,
        "moving_too_fast") := by
  simp [trainingStep, hprev, hfast]

/-- The QC gate accepts a frame short of the target: the sample is appended,
the counter increments, and the payload locals report tracking. -/
theorem trainingStep_accept (st : LoopState) (h : Hand) (norm : Vec)
    (hslow : st.prevWrist = none ∨ ∃ p, st.prevWrist = some p ∧
      ¬ dist2 ((h 0).1, (h 0).2.1) p > QC_VELOCITY_THRESHOLD)
    (hlt : st.framesCaptured + 1 < st.targetFrames) :
    trainingStep st h norm =
      ({ st with prevWrist := some ((h 0).1, (h 0).2.1),
                 classifier := st.classifier.add_sample st.trainingLabel norm,
                 framesCaptured := st.framesCaptured + 1 }, [],
        st.trainingLabel, 1, "tracking") := by
  have hnotge : ¬ st.targetFrames ≤ st.framesCaptured + 1 := by omega
  rcases hslow with hp | ⟨p, hp, hd⟩
  · simp [trainingStep, hp, hnotge]
  · simp [trainingStep, hp, hd, hnotge]

/-- The QC gate accepts a frame that reaches the target: the sample is
appended, the counter increments, training mode ends, the classifier is
retrained and a model save is performed. -/
theorem trainingStep_accept_done (st : LoopState) (h : Hand) (norm : Vec)
    (hslow : st.prevWrist = none ∨ ∃ p, st.prevWrist = some p ∧
      ¬ dist2 ((h 0).1, (h 0).2.1) p > QC_VELOCITY_THRESHOLD)
    (hge : st.targetFrames ≤ st.framesCaptured + 1) :
    trainingStep st h norm =
      ({ st with prevWrist := some ((h 0).1, (h 0).2.1),
                 classifier := (st.classifier.add_sample st.trainingLabel norm).train,
                 framesCaptured := st.framesCaptured + 1,
                 trainingMode := false }, [.saveModel],
        st.trainingLabel, 1, "tracking") := by
  rcases hslow with hp | ⟨p, hp, hd⟩
  · simp [trainingStep, hp, hge]
  · simp [trainingStep, hp, hd, hge]

/-- In training mode the payload build emits exactly one payload and caches
it, with the frame counters attached when any frames were captured. -/
theorem finishTick_training (st : LoopState) (effects : List Effect) (h : Hand)
    (gl : String) (conf : ℝ) (status : String) (hmode : st.trainingMode = true) :
    finishTick st effects h gl conf status =
      ⟨{ st with lastPayload := (withCounts st
            (Payload.mk gl (pyRound4R conf) (some (landmarksToList h)) status
              none none none)) }, effects,
        .ok [.payload (withCounts st
          (Payload.mk gl (pyRound4R conf) (some (landmarksToList h)) status
            none none none))]⟩ := by
  simp [finishTick, hmode]

/-- Outside training mode, with the triggered_action local never yet bound,
the payload build raises UnboundLocalError: no message of the tick is sent,
while the state mutations made before the raise remain. -/
theorem finishTick_crash (st : LoopState) (effects : List Effect) (h : Hand)
    (gl : String) (conf : ℝ) (status : String)
    (hmode : st.trainingMode = false) (hta : st.triggeredAction = none) :
    finishTick st effects h gl conf status = ⟨st, effects, .error .unboundLocal⟩ := by
  simp [finishTick, hmode, hta]

/-- The status a client reads off one outbound message. -/
def msgStatus : Msg → String
  | .payload p => p.status
  | .statusOnly s => s

/-- The gesture field of one outbound message (bare statuses carry none). -/
def msgGesture : Msg → Option String
  | .payload p => some p.gesture
  | .statusOnly _ => none

/-- The frames_captured field of one outbound message. -/
def msgFrames : Msg → Option ℕ
  | .payload p => p.frames_captured
  | .statusOnly _ => none

/-- The statuses of the messages a tick sent, in order. -/
def sentStatuses (r : TickResult) : Except PyExc (List String) :=
  r.sent.map (List.map msgStatus)

/-- The gesture fields of the messages a tick sent, in order. -/
def sentGestures (r : TickResult) : Except PyExc (List (Option String)) :=
  r.sent.map (List.map msgGesture)

/-- The frame counts of the messages a tick sent, in order. -/
def sentFrames (r : TickResult) : Except PyExc (List (Option ℕ)) :=
  r.sent.map (List.map msgFrames)

/-- Claim C4: on a training-mode frame with a detected hand, if the 2-D
wrist travel since the previous detected frame exceeds the 0.3 threshold,
no sample is recorded, the counter is unchanged and the tick emits one
payload with status moving_too_fast; otherwise (and short of the capture
target) the normalized vector is appended to the classifier, the counter
increments by exactly one, and the tick emits one payload with status
tracking; and a training-mode frame with no detected hand resets the
previous-wrist memory so the next detected frame cannot be rejected
against a stale reference. -/
theorem qc_gate_contract (st : LoopState) (env : SessionEnv) (now : ℚ) (h : Hand)
    (p : ℚ × ℚ) (hmode : st.trainingMode = true) :
    (st.prevWrist = some p → dist2 ((h 0).1, (h 0).2.1) p > QC_VELOCITY_THRESHOLD →
      (sessionTick st now (.hand h) env).state.classifier = st.classifier ∧
      (sessionTick st now (.hand h) env).state.framesCaptured = st.framesCaptured ∧
      sentStatuses (sessionTick st now (.hand h) env) = .ok ["moving_too_fast"] ∧
      sentGestures (sessionTick st now (.hand h) env) = .ok [some "None"]) ∧
    ((st.prevWrist = none ∨ (st.prevWrist = some p ∧
        ¬ dist2 ((h 0).1, (h 0).2.1) p > QC_VELOCITY_THRESHOLD)) →
      st.framesCaptured + 1 < st.targetFrames →
      (sessionTick st now (.hand h) env).state.classifier =
        st.classifier.add_sample st.trainingLabel (normalize_landmarks h) ∧
      (sessionTick st now (.hand h) env).state.framesCaptured = st.framesCaptured + 1 ∧
      sentStatuses (sessionTick st now (.hand h) env) = .ok ["tracking"] ∧
      sentGestures (sessionTick st now (.hand h) env) = .ok [some st.trainingLabel] ∧
      sentFrames (sessionTick st now (.hand h) env) = .ok [some (st.framesCaptured + 1)]) ∧
    ((sessionTick st now .noHand env).state.prevWrist = none ∧
      sentStatuses (sessionTick st now .noHand env) = .ok ["hand_lost"]) := by
  refine ⟨?_, ?_, ?_⟩
  · intro hprev hfast
    simp only [sessionTick_training_hand st now h env hmode]
    refine ⟨?_, ?_, ?_, ?_⟩ <;>
      simp [trainingStep, finishTick, hprev, hfast, hmode, sentStatuses, Except.map,
        sentGestures, msgStatus, msgGesture, withCounts_status, withCounts_gesture]
  · intro hslow hlt
    have hnotge : ¬ st.targetFrames ≤ st.framesCaptured + 1 := by omega
    simp only [sessionTick_training_hand st now h env hmode]
    rcases hslow with hp | ⟨hp, hd⟩
    · refine ⟨?_, ?_, ?_, ?_, ?_⟩ <;>
        simp [trainingStep, finishTick, hp, hmode, hnotge, sentStatuses,
          sentGestures, sentFrames, msgStatus, msgGesture, msgFrames, Except.map,
          withCounts_status, withCounts_gesture, withCounts_fc]
    · refine ⟨?_, ?_, ?_, ?_, ?_⟩ <;>
        simp [trainingStep, finishTick, hp, hd, hmode, hnotge, sentStatuses,
          sentGestures, sentFrames, msgStatus, msgGesture, msgFrames, Except.map,
          withCounts_status, withCounts_gesture, withCounts_fc]
  · constructor
    · simp [sessionTick, hmode]
    · simp [sessionTick, hmode, sentStatuses, msgStatus, Except.map]

/-- The 2-D distance from a point to itself is zero, so it never exceeds
the velocity threshold. -/
theorem dist2_self_not_fast (w : ℚ × ℚ) : ¬ dist2 w w > QC_VELOCITY_THRESHOLD := by
  have h0 : dist2 w w = 0 := by
    simp [dist2]
  rw [h0, QC_VELOCITY_THRESHOLD]
  norm_num

/-- Claim C9: on every training-mode frame with a detected hand the stored
previous-wrist position is overwritten with the current wrist — also when
the frame is rejected for fast motion — so a hand that jumps for one frame
and then holds still is rejected exactly once: the jump frame reports
moving_too_fast and the immediately following frame at the same wrist
position is accepted and counted. -/
theorem prev_wrist_always_updated (st : LoopState) (env : SessionEnv)
    (now now2 : ℚ) (h1 h2 : Hand) (p : ℚ × ℚ) (hmode : st.trainingMode = true) :
    (st.prevWrist = some p → dist2 ((h1 0).1, (h1 0).2.1) p > QC_VELOCITY_THRESHOLD →
      (sessionTick st now (.hand h1) env).state.prevWrist =
        some ((h1 0).1, (h1 0).2.1)) ∧
    ((st.prevWrist = none ∨ (st.prevWrist = some p ∧
        ¬ dist2 ((h1 0).1, (h1 0).2.1) p > QC_VELOCITY_THRESHOLD)) →
      (sessionTick st now (.hand h1) env).state.prevWrist =
        some ((h1 0).1, (h1 0).2.1)) ∧
    (st.prevWrist = some p → dist2 ((h1 0).1, (h1 0).2.1) p > QC_VELOCITY_THRESHOLD →
      (h2 0).1 = (h1 0).1 → (h2 0).2.1 = (h1 0).2.1 →
      st.framesCaptured + 1 < st.targetFrames →
      sentStatuses (sessionTick st now (.hand h1) env) = .ok ["moving_too_fast"] ∧
      sentStatuses (sessionTick
        (sessionTick st now (.hand h1) env).state now2 (.hand h2) env) =
        .ok ["tracking"] ∧
      (sessionTick (sessionTick st now (.hand h1) env).state now2
        (.hand h2) env).state.framesCaptured = st.framesCaptured + 1) := by
  refine ⟨?_, ?_, ?_⟩
  · intro hprev hfast
    simp only [sessionTick_training_hand st now h1 env hmode]
    simp [trainingStep, finishTick, hprev, hfast, hmode]
  · intro hslow
    rcases hslow with hp | ⟨hp, hd⟩
    · simp only [sessionTick_training_hand st now h1 env hmode]
      by_cases hge : st.targetFrames ≤ st.framesCaptured + 1
      · rcases hta : st.triggeredAction with _ | ta
        · simp [trainingStep, finishTick, hp, hge, hmode, hta]
        · rcases ta with _ | a <;>
            simp [trainingStep, finishTick, hp, hge, hmode, hta, withCounts]
      · simp [trainingStep, finishTick, hp, hge, hmode, withCounts]
    · simp only [sessionTick_training_hand st now h1 env hmode]
      by_cases hge : st.targetFrames ≤ st.framesCaptured + 1
      · rcases hta : st.triggeredAction with _ | ta
        · simp [trainingStep, finishTick, hp, hd, hge, hmode, hta]
        · rcases ta with _ | a <;>
            simp [trainingStep, finishTick, hp, hd, hge, hmode, hta, withCounts]
      · simp [trainingStep, finishTick, hp, hd, hge, hmode, withCounts]
  · intro hprev hfast he1 he2 hlt
    have hnotge : ¬ st.targetFrames ≤ st.framesCaptured + 1 := by omega
    have hzero := dist2_self_not_fast ((h1 0).1, (h1 0).2.1)
    refine ⟨?_, ?_, ?_⟩ <;>
      simp [sessionTick_training_hand, trainingStep, finishTick, hprev, hfast,
        hmode, he1, he2, hzero, hnotge, sentStatuses, msgStatus, Except.map,
        withCounts_status]

/-- The executor/move oracles used in concrete runs: every desktop action
succeeds and the cursor move does not raise. -/
def defEnv : SessionEnv := ⟨fun _ => true, false⟩

/-- A hand whose 21 landmarks all sit at the origin. -/
def zeroHand : Hand := fun _ => (0, 0, 0)

/-- A hand whose 21 landmarks all sit at (1/2, 1/2, 0). -/
def halfHand : Hand := fun _ => (1/2, 1/2, 0)

/-- A fresh session that has just been told to train gesture g with a
one-frame target, before any prediction-mode frame ever ran: the Python
local triggered_action is still unbound. -/
def c2State : LoopState :=
  startTraining
    (initLoopState (GestureClassifier.init 5) (MouseState.init 1920 1080)
      (DesktopController.init [])) "g" 1

/-- Claim C2 failing run: on the very tick that reaches the training target
in a session that never ran a prediction-mode hand frame, the sample is
recorded, training mode ends and the model is retrained — but the payload
build then reads the unbound local triggered_action, so the tick raises
UnboundLocalError and neither the final tracking payload nor the
training_complete status is sent. -/
theorem training_complete_unbound_crash :
    c2State.triggeredAction = none ∧
    c2State.trainingMode = true ∧
    (sessionTick c2State 0 (.hand zeroHand) defEnv).sent = .error .unboundLocal ∧
    (sessionTick c2State 0 (.hand zeroHand) defEnv).state.framesCaptured = 1 ∧
    (sessionTick c2State 0 (.hand zeroHand) defEnv).state.trainingMode = false ∧
    (sessionTick c2State 0 (.hand zeroHand) defEnv).state.classifier.X_data =
      [normalize_landmarks zeroHand] ∧
    (sessionTick c2State 0 (.hand zeroHand) defEnv).state.classifier.is_trained = true ∧
    (sessionTick c2State 0 (.hand zeroHand) defEnv).effects = [Effect.saveModel] := by
  have hmode : c2State.trainingMode = true := rfl
  have hta : c2State.triggeredAction = none := rfl
  have hprev : c2State.prevWrist = none := rfl
  have hge : c2State.targetFrames ≤ c2State.framesCaptured + 1 := by
    simp [c2State, startTraining, initLoopState]
  refine ⟨hta, hmode, ?_, ?_, ?_, ?_, ?_, ?_⟩ <;>
    · simp only [sessionTick_training_hand c2State 0 zeroHand defEnv hmode]
      simp [trainingStep, finishTick, hprev, hge, hmode, hta,
        GestureClassifier.add_sample, GestureClassifier.train,
        c2State, startTraining, initLoopState, GestureClassifier.init]

/-- A session in training mode for gesture wave with a ten-frame target. -/
def witLoop : LoopState :=
  startTraining
    (initLoopState (GestureClassifier.init 5) (MouseState.init 1920 1080)
      (DesktopController.init [])) "wave" 10

/-- witLoop with a remembered previous wrist at the origin. -/
def witLoop2 : LoopState := { witLoop with prevWrist := some (0, 0) }

/-- A wrist jump from the origin to (1/2, 1/2) travels about 0.707, beyond
the 0.3 velocity threshold. -/
theorem halfHand_fast :
    dist2 ((halfHand 0).1, (halfHand 0).2.1) ((0 : ℚ), (0 : ℚ)) >
      QC_VELOCITY_THRESHOLD := by
  rw [QC_VELOCITY_THRESHOLD, dist2]
  simp only [halfHand]
  rw [show ((((1:ℚ)/2 - 0) ^ 2 + ((1:ℚ)/2 - 0) ^ 2 : ℚ) : ℝ) = 1/2 by push_cast; norm_num]
  exact (Real.lt_sqrt (by norm_num)).mpr (by norm_num)

/-- Witness for qc_gate_contract: a still hand at the start of training is
accepted and counted; a wrist jump of 0.707 against a remembered wrist at
the origin is rejected with the counter unchanged. -/
theorem qc_gate_contract_witness :
    witLoop.trainingMode = true ∧ witLoop.prevWrist = none ∧
    witLoop.framesCaptured + 1 < witLoop.targetFrames ∧
    sentStatuses (sessionTick witLoop 0 (.hand zeroHand) defEnv) = .ok ["tracking"] ∧
    (sessionTick witLoop 0 (.hand zeroHand) defEnv).state.framesCaptured =
      witLoop.framesCaptured + 1 ∧
    witLoop2.prevWrist = some (0, 0) ∧
    dist2 ((halfHand 0).1, (halfHand 0).2.1) (0, 0) > QC_VELOCITY_THRESHOLD ∧
    sentStatuses (sessionTick witLoop2 0 (.hand halfHand) defEnv) =
      .ok ["moving_too_fast"] ∧
    (sessionTick witLoop2 0 (.hand halfHand) defEnv).state.framesCaptured =
      witLoop2.framesCaptured := by
  have hmode : witLoop.trainingMode = true := rfl
  have hmode2 : witLoop2.trainingMode = true := rfl
  have hprev : witLoop.prevWrist = none := rfl
  have hprev2 : witLoop2.prevWrist = some (0, 0) := rfl
  have hlt : witLoop.framesCaptured + 1 < witLoop.targetFrames := by
    simp [witLoop, startTraining, initLoopState]
  have hacc := (qc_gate_contract witLoop defEnv 0 zeroHand (0, 0) hmode).2.1
    (Or.inl hprev) hlt
  have hrej := (qc_gate_contract witLoop2 defEnv 0 halfHand (0, 0) hmode2).1
    hprev2 halfHand_fast
  exact ⟨hmode, hprev, hlt, hacc.2.2.1, hacc.2.1, hprev2, halfHand_fast,
    hrej.2.2.1, hrej.2.1⟩

/-- Witness for prev_wrist_always_updated: after a rejected jump to
(1/2, 1/2) the remembered wrist is the jump position, and a second frame at
that same position is accepted and counted. -/
theorem prev_wrist_always_updated_witness :
    witLoop2.prevWrist = some (0, 0) ∧
    dist2 ((halfHand 0).1, (halfHand 0).2.1) (0, 0) > QC_VELOCITY_THRESHOLD ∧
    (sessionTick witLoop2 0 (.hand halfHand) defEnv).state.prevWrist =
      some ((halfHand 0).1, (halfHand 0).2.1) ∧
    sentStatuses (sessionTick witLoop2 0 (.hand halfHand) defEnv) =
      .ok ["moving_too_fast"] ∧
    sentStatuses (sessionTick (sessionTick witLoop2 0 (.hand halfHand) defEnv).state
      1 (.hand halfHand) defEnv) = .ok ["tracking"] ∧
    (sessionTick (sessionTick witLoop2 0 (.hand halfHand) defEnv).state 1
      (.hand halfHand) defEnv).state.framesCaptured = witLoop2.framesCaptured + 1 := by
  have h := prev_wrist_always_updated witLoop2 defEnv 0 1 halfHand halfHand (0, 0) rfl
  have hlt : witLoop2.framesCaptured + 1 < witLoop2.targetFrames := by
    simp [witLoop2, witLoop, startTraining, initLoopState]
  have hiii := h.2.2 rfl halfHand_fast rfl rfl hlt
  exact ⟨rfl, halfHand_fast, h.1 rfl halfHand_fast, hiii.1, hiii.2.1, hiii.2.2⟩
